import Mathlib

/-!
Shallow embedding of the session-management middleware `axum_session_runner`
(src/src/manager.rs) of the AxumSession repository.

Modelling conventions:
* Timestamps (`chrono::DateTime<Utc>`) and durations (`chrono::Duration`) are
  integers.  Each request observes a single time value `now`; the several
  `Utc::now()` calls made during one request are modelled as reading the same
  clock value.
* `Uuid` identifiers are modelled as naturals, rendered to their canonical
  string form by `uuidToString`; `uuid_parse_str` models `Uuid::parse_str`
  (some strings parse to an identifier, the rest fail).
* The shared caches (`store.inner`, i.e. `HashMap<String, Mutex<AxumSessionData>>`,
  and the durable backing store) are association lists from key strings to
  records.  Per-record mutexes and the upgradable read-write lock disappear in
  the sequential embedding; the window between the release of the resolution
  lock (end of the `id:` block) and the re-acquisition at the persistence step
  is modelled by an explicit `interleave` state transformer standing for the
  actions of concurrent threads during that window.
* The random generator feeding `Uuid::new_v4` is an explicit list of candidate
  identifiers; the retry loop takes the first candidate that is not a key of
  the cache, and a run that exhausts the supply is the non-terminating loop.
* Rust panics (`expect` / `unwrap`) and the early `Err(StatusCode)` return are
  distinct constructors of `Outcome`.
* The downstream handler (`next.run(req)`) is modelled as a mutation `hmut`
  applied to the resolved identifier entry of the cache, which is exactly the
  access the `AxumSession` handle gives downstream code.
-/

/-- Record of session state, `AxumSessionData` in the source: identifier,
key-value data bag, logical expiry, destroy flag, and in-memory eviction
deadline. -/
structure AxumSessionData where
  id : Nat
  data : List (String × String)
  expires : Int
  destroy : Bool
  autoremove : Int
deriving Repr, DecidableEq

/-- Sweep-throttling timers held in `store.timers`. -/
structure AxumSessionTimers where
  last_expiry_sweep : Int
  last_database_expiry_sweep : Int
deriving Repr, DecidableEq

/-- Configuration consumed by the runner: cookie name, logical lifespan, and
in-memory lifespan. -/
structure AxumSessionConfig where
  cookie_name : String
  lifespan : Int
  memory_lifespan : Int
deriving Repr, DecidableEq

/-- Combined mutable state visible to the runner: the in-memory cache
(`store.inner`), the timers, the durable backing store contents, and three
fault-injection flags deciding whether the next load, save and cleanup call on
the backing store fails. -/
structure StoreState where
  inner : List (String × AxumSessionData)
  timers : AxumSessionTimers
  backing : List (String × AxumSessionData)
  loadFails : Bool
  saveFails : Bool
  cleanupFails : Bool
deriving Repr, DecidableEq

/-- Lookup in an association list, first binding of the key wins -/
def alookup (k : String) : List (String × AxumSessionData) → Option AxumSessionData
  | [] => none
  | (k₂, v) :: rest => if k₂ = k then some v else alookup k rest

/-- Insert-or-replace in an association list, modelling `HashMap::insert` and
the in-place update of a record behind its mutex. -/
def ainsert (k : String) (v : AxumSessionData) :
    List (String × AxumSessionData) → List (String × AxumSessionData)
  | [] => [(k, v)]
  | (k₂, v₂) :: rest => if k₂ = k then (k, v) :: rest else (k₂, v₂) :: ainsert k v rest

/-- Canonical string rendering of an identifier (models `Uuid::to_string`,
with identifiers modelled as naturals rendered in decimal). -/
def uuidToString (n : Nat) : String := toString n

/-- Value of a decimal digit character. -/
def digitVal (c : Char) : Option Nat :=
  if c = '0' then some 0 else if c = '1' then some 1 else if c = '2' then some 2
  else if c = '3' then some 3 else if c = '4' then some 4 else if c = '5' then some 5
  else if c = '6' then some 6 else if c = '7' then some 7 else if c = '8' then some 8
  else if c = '9' then some 9 else none

/-- Accumulating decimal parse of a character list. -/
def parseDecAux : List Char → Nat → Option Nat
  | [], acc => some acc
  | c :: rest, acc =>
    match digitVal c with
    | none => none
    | some d => parseDecAux rest (10 * acc + d)

/-- Modelled from the spec: identifiers are opaque 128-bit values carried as
canonical strings, and a cookie value either parses to an identifier or is
malformed.  Models `Uuid::parse_str`, with decimal naturals as the canonical
form. -/
def uuid_parse_str (s : String) : Option Nat :=
  match s.data with
  | [] => none
  | l => parseDecAux l 0

/-- Modelled from the spec: the logical validity check `AxumSessionData::validate`
(defined outside src/) checks that `expires` has not already passed. -/
def AxumSessionData.validate (sess : AxumSessionData) (now : Int) : Bool :=
  decide (now ≤ sess.expires)

/-- Modelled from the spec: `BackingStore.load(id)` returns the durable record
for the key, or `none` when absent, and fails with an error on I/O failure.
Models `store.load_session` (defined outside src/). -/
def load_session (s : StoreState) (key : String) : Except Unit (Option AxumSessionData) :=
  if s.loadFails then Except.error () else Except.ok (alookup key s.backing)

/-- Modelled from the spec: `BackingStore.save(record)` durably writes the
record under its identifier key, and fails with an error on I/O failure.
Models `store.store_session` (defined outside src/). -/
def store_session (s : StoreState) (d : AxumSessionData) : Except Unit StoreState :=
  if s.saveFails then Except.error ()
  else Except.ok { s with backing := ainsert (uuidToString d.id) d s.backing }

/-- Modelled from the spec: `BackingStore.cleanup()` removes all logically
expired records from durable storage, and fails with an error on I/O failure.
Models `store.cleanup` (defined outside src/). -/
def store_cleanup (now : Int) (s : StoreState) : Except Unit StoreState :=
  if s.cleanupFails then Except.error ()
  else Except.ok { s with backing := s.backing.filter (fun kv => decide (now ≤ kv.2.expires)) }

/-- The cache sweep body, `store_wg.retain(|_k, v| v.lock().autoremove > Utc::now())`:
keeps exactly the entries whose autoremove deadline is still in the future. -/
def sweepCache (now : Int) (m : List (String × AxumSessionData)) :
    List (String × AxumSessionData) :=
  m.filter (fun kv => decide (now < kv.2.autoremove))

/-- The identifier-generation loop (`Uuid::new_v4` retried until the rendered
token is not a key of the cache), fed by an explicit candidate supply. -/
def pickFresh (cache : List (String × AxumSessionData)) : List Nat → Option Nat
  | [] => none
  | t :: rest => if (alookup (uuidToString t) cache).isSome then pickFresh cache rest else some t

/-- Observable internal events of one request, used to state ordering
properties: the two maintenance sweeps, the persistence write, and the run of
the downstream handler. -/
inductive Event where
  | cacheSweep
  | storeCleanup
  | saveRecord (key : String)
  | runHandler
deriving Repr, DecidableEq

/-- How a request run ends: normally, with the early `Err(StatusCode)` result,
with one of the three panics (`expect` on the cookie parse, `unwrap` on
cleanup, `unwrap` on the persistence save), or looping forever in the
identifier-generation loop. -/
inductive Outcome where
  | ok
  | errStatus
  | panicParse
  | panicCleanup
  | panicSave
  | hang
deriving Repr, DecidableEq

/-- Result of the identifier-resolution block (the `id:` initialiser,
src/src/manager.rs lines 30-135): the resolved identifier, the cookie issued
(if any), the updated state and the events so far, or an abnormal exit. -/
inductive ResolveOut where
  | ok (uid : Nat) (issued : Option String) (s : StoreState) (tr : List Event)
  | panicParse
  | panicCleanup (s : StoreState) (tr : List Event)
  | hang
deriving Repr, DecidableEq

/-- Events recorded by the resolution block. -/
def ResolveOut.events : ResolveOut → List Event
  | .ok _ _ _ tr => tr
  | .panicCleanup _ tr => tr
  | _ => []

/-- State after the resolution block (falling back to the given state on the
exits that leave the state untouched). -/
def ResolveOut.stateD (dflt : StoreState) : ResolveOut → StoreState
  | .ok _ _ s _ => s
  | .panicCleanup s _ => s
  | _ => dflt

/-- Fresh record construction (src lines 68-74 and 123-129): empty data,
expiry a hard-coded six hours from now, destroy unset, autoremove one
memory lifespan from now. -/
def freshRecord (cfg : AxumSessionConfig) (now : Int) (uid : Nat) : AxumSessionData :=
  { id := uid
    data := []
    expires := now + 6 * 3600
    destroy := false
    autoremove := now + cfg.memory_lifespan }

/-- Tail of the new-identifier branch (src lines 119-131): issue the cookie
and insert a fresh record under the new key. -/
def finishNewId (cfg : AxumSessionConfig) (now : Int) (uid : Nat) (s : StoreState)
    (tr : List Event) : ResolveOut :=
  ResolveOut.ok uid (some (uuidToString uid))
    { s with inner := ainsert (uuidToString uid) (freshRecord cfg now uid) s.inner } tr

/-- The identifier-resolution block of `axum_session_runner`
(src/src/manager.rs lines 30-135), translated branch by branch:

* cookie present: parse it (panicking on failure, line 35); on a cache hit
  clear the data when destroyed or expired and extend both deadlines from
  configuration (lines 50-61, no cookie issued); on a cache miss rehydrate
  from the backing store treating a load error as absent, reset the record if
  it fails validation or is destroyed, issue a cookie and insert (lines 62-89);
* cookie absent: generate a fresh identifier, run the two throttled sweep
  blocks (lines 98-117), issue a cookie and insert a fresh record. -/
def resolve_id (cfg : AxumSessionConfig) (now : Int) (cookieVal : Option String)
    (freshIds : List Nat) (s : StoreState) : ResolveOut :=
  match cookieVal with
  | some v =>
    match uuid_parse_str v with
    | none => ResolveOut.panicParse
    | some uid =>
      let key := uuidToString uid
      match alookup key s.inner with
      | some inner₀ =>
        let inner₁ :=
          if inner₀.expires < now || inner₀.destroy then { inner₀ with data := [] } else inner₀
        let inner₂ :=
          { inner₁ with expires := now + cfg.lifespan, autoremove := now + cfg.memory_lifespan }
        ResolveOut.ok uid none { s with inner := ainsert key inner₂ s.inner } []
      | none =>
        let loaded :=
          match load_session s key with
          | Except.error _ => none
          | Except.ok o => o
        let sess₀ := loaded.getD (freshRecord cfg now uid)
        let sess :=
          if !sess₀.validate now || sess₀.destroy then
            { sess₀ with
              data := []
              expires := now + 6 * 3600
              autoremove := now + cfg.memory_lifespan }
          else sess₀
        ResolveOut.ok uid (some key) { s with inner := ainsert key sess s.inner } []
  | none =>
    match pickFresh s.inner freshIds with
    | none => ResolveOut.hang
    | some uid =>
      let step₁ :=
        if s.timers.last_expiry_sweep ≤ now then
          ({ s with
              inner := sweepCache now s.inner
              timers := { s.timers with last_expiry_sweep := now + cfg.memory_lifespan } },
            [Event.cacheSweep])
        else (s, ([] : List Event))
      let s₁ := step₁.1
      if s₁.timers.last_database_expiry_sweep ≤ now then
        let s₂ := { s₁ with inner := sweepCache now s₁.inner }
        match store_cleanup now s₂ with
        | Except.error _ => ResolveOut.panicCleanup s₂ (step₁.2 ++ [Event.cacheSweep])
        | Except.ok s₃ =>
          finishNewId cfg now uid
            { s₃ with
              timers := { s₃.timers with last_database_expiry_sweep := now + cfg.lifespan } }
            (step₁.2 ++ [Event.cacheSweep, Event.storeCleanup])
      else finishNewId cfg now uid s₁ step₁.2

/-- The persistence step (src lines 143-154): re-read the cache entry for the
resolved key; when present, save a clone of it to the backing store
(`unwrap` panicking on failure); when absent, do nothing. -/
def persist_step (s : StoreState) (key : String) : Outcome × StoreState × List Event :=
  match alookup key s.inner with
  | none => (Outcome.ok, s, [])
  | some d =>
    match store_session s d with
    | Except.error _ => (Outcome.panicSave, s, [])
    | Except.ok s₂ => (Outcome.ok, s₂, [Event.saveRecord key])

/-- The downstream handler (`next.run(req)`): it can mutate the resolved
session record through the `AxumSession` handle, modelled as applying `hmut`
to the cache entry of the resolved key. -/
def run_handler (hmut : AxumSessionData → AxumSessionData) (key : String)
    (s : StoreState) : StoreState :=
  match alookup key s.inner with
  | none => s
  | some d => { s with inner := ainsert key (hmut d) s.inner }

/-- Result of one full request run. -/
structure RunResult where
  outcome : Outcome
  state : StoreState
  resolvedId : Option Nat
  issuedCookie : Option String
  trace : List Event
deriving Repr, DecidableEq

/-- The full middleware `axum_session_runner` (src/src/manager.rs lines
18-157): fail with a status error when the cookie jar extension is missing;
resolve the identifier; then (lines 143-156, in this order) save the current
cache record for the resolved key to the backing store and finally run the
downstream handler.  `interleave` stands for the actions of concurrent
threads between the resolution block and the persistence read. -/
def axum_session_runner (cfg : AxumSessionConfig) (now : Int) (hasCookies : Bool)
    (cookieVal : Option String) (freshIds : List Nat)
    (interleave : StoreState → StoreState)
    (hmut : AxumSessionData → AxumSessionData)
    (s : StoreState) : RunResult :=
  if hasCookies = false then ⟨Outcome.errStatus, s, none, none, []⟩
  else
    match resolve_id cfg now cookieVal freshIds s with
    | ResolveOut.panicParse => ⟨Outcome.panicParse, s, none, none, []⟩
    | ResolveOut.panicCleanup s₁ tr => ⟨Outcome.panicCleanup, s₁, none, none, tr⟩
    | ResolveOut.hang => ⟨Outcome.hang, s, none, none, []⟩
    | ResolveOut.ok uid issued s₁ tr =>
      let key := uuidToString uid
      let s₂ := interleave s₁
      let pr := persist_step s₂ key
      if pr.1 = Outcome.panicSave then
        ⟨Outcome.panicSave, pr.2.1, some uid, issued, tr ++ pr.2.2⟩
      else
        ⟨Outcome.ok, run_handler hmut key pr.2.1, some uid, issued,
          tr ++ pr.2.2 ++ [Event.runHandler]⟩

/-! ### Helper lemmas -/

theorem alookup_ainsert_self (k : String) (v : AxumSessionData)
    (m : List (String × AxumSessionData)) : alookup k (ainsert k v m) = some v := by
  induction m with
  | nil => simp [ainsert, alookup]
  | cons hd tl ih =>
    obtain ⟨k₂, v₂⟩ := hd
    by_cases h : k₂ = k
    · simp [ainsert, alookup, h]
    · simp [ainsert, alookup, h, ih]

theorem resolve_events_sweep_only (cfg : AxumSessionConfig) (now : Int)
    (cookieVal : Option String) (freshIds : List Nat) (s : StoreState) :
    ∀ e ∈ (resolve_id cfg now cookieVal freshIds s).events,
      e = Event.cacheSweep ∨ e = Event.storeCleanup := by
  unfold resolve_id
  cases cookieVal with
  | none =>
    cases hp : pickFresh s.inner freshIds with
    | none => simp [ResolveOut.events]
    | some uid =>
      simp only
      repeat' split
      all_goals simp_all [ResolveOut.events, finishNewId]
  | some v =>
    simp only
    cases hv : uuid_parse_str v with
    | none => simp [hv, ResolveOut.events]
    | some uid =>
      simp only [hv]
      split <;> simp [ResolveOut.events]

/-! ### Claim theorems -/

/-- C6: the cache sweep leaves the cache a sublist of the old one (no
surviving entry is modified or reordered) and an entry survives the sweep at
time `now` exactly when its autoremove deadline is still strictly in the
future, i.e. the sweep removes exactly the entries with `autoremove ≤ now`
and no others. -/
theorem c6_sweep_exact (now : Int) (m : List (String × AxumSessionData)) :
    List.Sublist (sweepCache now m) m ∧
      ∀ e : String × AxumSessionData, e ∈ sweepCache now m ↔ e ∈ m ∧ now < e.2.autoremove := by
  constructor
  · exact List.filter_sublist m
  · intro e
    simp [sweepCache]

/-- C6 witness: the sweep at time 10 on a two-entry cache keeps exactly the
entry whose autoremove deadline is still in the future. -/
theorem c6_sweep_exact_witness :
    List.Sublist (sweepCache 10 [("1", ⟨1, [], 50, false, 5⟩), ("2", ⟨2, [], 50, false, 50⟩)])
        [("1", ⟨1, [], 50, false, 5⟩), ("2", ⟨2, [], 50, false, 50⟩)] ∧
      (("2", (⟨2, [], 50, false, 50⟩ : AxumSessionData)) ∈
          sweepCache 10 [("1", ⟨1, [], 50, false, 5⟩), ("2", ⟨2, [], 50, false, 50⟩)] ↔
        ("2", (⟨2, [], 50, false, 50⟩ : AxumSessionData)) ∈
            [("1", (⟨1, [], 50, false, 5⟩ : AxumSessionData)), ("2", ⟨2, [], 50, false, 50⟩)] ∧
          (10 : Int) < 50) :=
  ⟨(c6_sweep_exact 10 [("1", ⟨1, [], 50, false, 5⟩), ("2", ⟨2, [], 50, false, 50⟩)]).1,
    (c6_sweep_exact 10 [("1", ⟨1, [], 50, false, 5⟩), ("2", ⟨2, [], 50, false, 50⟩)]).2 _⟩

/-- C2 counterexample: a request whose cookie value "zz" is not a valid
identifier does not fall back to fresh-session creation: the runner panics on
the parse (`expect`), resolves no identifier, leaves the cache empty and
issues no cookie, so the claim that the request is not failed and a fresh
session is created is false on the code. -/
theorem c2_counterexample :
    (axum_session_runner ⟨"sid", 100, 10⟩ 0 true (some "zz") [7] (fun st => st) (fun d => d)
          ⟨[], ⟨1000, 1000⟩, [], false, false, false⟩).outcome = Outcome.panicParse ∧
      (axum_session_runner ⟨"sid", 100, 10⟩ 0 true (some "zz") [7] (fun st => st) (fun d => d)
          ⟨[], ⟨1000, 1000⟩, [], false, false, false⟩).state.inner = [] ∧
      (axum_session_runner ⟨"sid", 100, 10⟩ 0 true (some "zz") [7] (fun st => st) (fun d => d)
          ⟨[], ⟨1000, 1000⟩, [], false, false, false⟩).resolvedId = none ∧
      (axum_session_runner ⟨"sid", 100, 10⟩ 0 true (some "zz") [7] (fun st => st) (fun d => d)
          ⟨[], ⟨1000, 1000⟩, [], false, false, false⟩).issuedCookie = none := by
  decide

/-- C2 (amended): a request whose cookie value is present but is not a
syntactically valid identifier is failed: the runner panics on the parse and
returns with the state untouched — the malformed value is not treated as
absent and no fresh session is created. -/
theorem c2_malformed_cookie_panics (cfg : AxumSessionConfig) (now : Int)
    (freshIds : List Nat) (interleave : StoreState → StoreState)
    (hmut : AxumSessionData → AxumSessionData) (s : StoreState) (v : String)
    (h : uuid_parse_str v = none) :
    axum_session_runner cfg now true (some v) freshIds interleave hmut s
      = ⟨Outcome.panicParse, s, none, none, []⟩ := by
  simp [axum_session_runner, resolve_id, h]

/-- C2 witness: the amended claim applied at cookie value "nope". -/
theorem c2_malformed_cookie_panics_witness :
    uuid_parse_str "nope" = none ∧
      axum_session_runner ⟨"sid", 100, 10⟩ 5 true (some "nope") [] (fun st => st) (fun d => d)
          ⟨[], ⟨0, 0⟩, [], false, false, false⟩
        = ⟨Outcome.panicParse, ⟨[], ⟨0, 0⟩, [], false, false, false⟩, none, none, []⟩ :=
  ⟨by decide,
    c2_malformed_cookie_panics ⟨"sid", 100, 10⟩ 5 [] (fun st => st) (fun d => d)
      ⟨[], ⟨0, 0⟩, [], false, false, false⟩ "nope" (by decide)⟩

/-- C10: when the resolved identifier is no longer a key of the cache at the
persistence step (the `interleave` transformer models a concurrent sweep
between resolution and persistence), the persistence step performs no save
and raises no error — it returns the state unchanged — and the full runner
still proceeds to the downstream handler and completes normally. -/
theorem c10_missing_record_skips_save (cfg : AxumSessionConfig) (now : Int)
    (cookieVal : Option String) (freshIds : List Nat)
    (interleave : StoreState → StoreState) (hmut : AxumSessionData → AxumSessionData)
    (s : StoreState) (uid : Nat) (issued : Option String) (s₁ : StoreState) (tr : List Event)
    (hres : resolve_id cfg now cookieVal freshIds s = ResolveOut.ok uid issued s₁ tr)
    (habs : alookup (uuidToString uid) (interleave s₁).inner = none) :
    persist_step (interleave s₁) (uuidToString uid) = (Outcome.ok, interleave s₁, []) ∧
      axum_session_runner cfg now true cookieVal freshIds interleave hmut s
        = ⟨Outcome.ok, interleave s₁, some uid, issued, tr ++ [Event.runHandler]⟩ := by
  have hp : persist_step (interleave s₁) (uuidToString uid)
      = (Outcome.ok, interleave s₁, []) := by
    simp [persist_step, habs]
  refine ⟨hp, ?_⟩
  simp [axum_session_runner, hres, hp, run_handler, habs]

/-- C10 witness: resolution under a cache miss inserts the fresh record for
key "5"; a transformer that empties the cache between resolution and
persistence makes the persistence step a no-op and the run still completes. -/
theorem c10_missing_record_skips_save_witness :
    persist_step ⟨[], ⟨1000, 1000⟩, [], false, false, false⟩ (uuidToString 5)
        = (Outcome.ok, ⟨[], ⟨1000, 1000⟩, [], false, false, false⟩, []) ∧
      axum_session_runner ⟨"sid", 100, 10⟩ 0 true (some "5") []
          (fun st => ⟨[], st.timers, st.backing, st.loadFails, st.saveFails, st.cleanupFails⟩)
          (fun d => d) ⟨[], ⟨1000, 1000⟩, [], false, false, false⟩
        = ⟨Outcome.ok, ⟨[], ⟨1000, 1000⟩, [], false, false, false⟩, some 5, some "5",
            [Event.runHandler]⟩ :=
  c10_missing_record_skips_save ⟨"sid", 100, 10⟩ 0 (some "5") []
    (fun st => ⟨[], st.timers, st.backing, st.loadFails, st.saveFails, st.cleanupFails⟩)
    (fun d => d) ⟨[], ⟨1000, 1000⟩, [], false, false, false⟩ 5 (some "5")
    ⟨[("5", ⟨5, [], 21600, false, 10⟩)], ⟨1000, 1000⟩, [], false, false, false⟩ []
    (by decide) (by decide)

theorem runner_ok_of_resolve_ok (cfg : AxumSessionConfig) (now : Int)
    (cookieVal : Option String) (freshIds : List Nat)
    (hmut : AxumSessionData → AxumSessionData) (s : StoreState) (uid : Nat)
    (issued : Option String) (s₁ : StoreState) (tr : List Event) (d : AxumSessionData)
    (hres : resolve_id cfg now cookieVal freshIds s = ResolveOut.ok uid issued s₁ tr)
    (hd : alookup (uuidToString uid) s₁.inner = some d)
    (hsv : s₁.saveFails = false) :
    (axum_session_runner cfg now true cookieVal freshIds (fun st => st) hmut s).outcome
      = Outcome.ok := by
  simp only [axum_session_runner, hres]
  simp [persist_step, hd, store_session, hsv]

/-- C7: on a cache miss whose backing-store load fails, resolution proceeds
as if the record were absent: the fresh record is constructed and inserted
into the cache, a cookie carrying the identifier is issued, and (the later
save step being healthy) the request completes normally instead of failing. -/
theorem c7_load_failure_fail_open (cfg : AxumSessionConfig) (now : Int)
    (freshIds : List Nat) (hmut : AxumSessionData → AxumSessionData) (s : StoreState)
    (v : String) (uid : Nat)
    (hv : uuid_parse_str v = some uid)
    (hmiss : alookup (uuidToString uid) s.inner = none)
    (hload : s.loadFails = true)
    (hsave : s.saveFails = false) :
    resolve_id cfg now (some v) freshIds s
      = ResolveOut.ok uid (some (uuidToString uid))
          { s with inner := ainsert (uuidToString uid) (freshRecord cfg now uid) s.inner } [] ∧
      (axum_session_runner cfg now true (some v) freshIds (fun st => st) hmut s).outcome
        = Outcome.ok := by
  have hres : resolve_id cfg now (some v) freshIds s
      = ResolveOut.ok uid (some (uuidToString uid))
          { s with inner := ainsert (uuidToString uid) (freshRecord cfg now uid) s.inner } [] := by
    simp [resolve_id, hv, hmiss, load_session, hload, freshRecord, AxumSessionData.validate,
      show now ≤ now + 6 * 3600 by omega]
  exact ⟨hres,
    runner_ok_of_resolve_ok cfg now (some v) freshIds hmut s uid (some (uuidToString uid))
      { s with inner := ainsert (uuidToString uid) (freshRecord cfg now uid) s.inner } []
      (freshRecord cfg now uid) hres
      (alookup_ainsert_self (uuidToString uid) (freshRecord cfg now uid) s.inner) hsave⟩

/-- C7 witness: the load-failure path at identifier 5 on an empty cache. -/
theorem c7_load_failure_fail_open_witness :
    resolve_id ⟨"sid", 100, 10⟩ 0 (some "5") [] ⟨[], ⟨1000, 1000⟩, [], true, false, false⟩
        = ResolveOut.ok 5 (some (uuidToString 5))
            ⟨[("5", freshRecord ⟨"sid", 100, 10⟩ 0 5)], ⟨1000, 1000⟩, [], true, false, false⟩
            [] ∧
      (axum_session_runner ⟨"sid", 100, 10⟩ 0 true (some "5") [] (fun st => st) (fun d => d)
          ⟨[], ⟨1000, 1000⟩, [], true, false, false⟩).outcome = Outcome.ok :=
  c7_load_failure_fail_open ⟨"sid", 100, 10⟩ 0 [] (fun d => d)
    ⟨[], ⟨1000, 1000⟩, [], true, false, false⟩ "5" 5 (by decide) (by decide) (by decide)
    (by decide)

/-- C9: no operation on the cookie path ever turns the destroy flag off.  On
a cache hit of a destroyed record the data is cleared but the flag stays
true, and on a rehydration of a destroyed backing record the inserted record
keeps the flag true with cleared data — so the data is cleared again on every
later resolve of the same record. -/
theorem c9_destroy_preserved (cfg : AxumSessionConfig) (now : Int) (freshIds : List Nat)
    (s : StoreState) (v : String) (uid : Nat)
    (hv : uuid_parse_str v = some uid) :
    (∀ rec, alookup (uuidToString uid) s.inner = some rec → rec.destroy = true →
      ∃ s₁ rec₂, resolve_id cfg now (some v) freshIds s = ResolveOut.ok uid none s₁ [] ∧
        alookup (uuidToString uid) s₁.inner = some rec₂ ∧
        rec₂.destroy = true ∧ rec₂.data = []) ∧
    (∀ rec, alookup (uuidToString uid) s.inner = none → s.loadFails = false →
      alookup (uuidToString uid) s.backing = some rec → rec.destroy = true →
      ∃ s₁ rec₂, resolve_id cfg now (some v) freshIds s
          = ResolveOut.ok uid (some (uuidToString uid)) s₁ [] ∧
        alookup (uuidToString uid) s₁.inner = some rec₂ ∧
        rec₂.destroy = true ∧ rec₂.data = []) := by
  constructor
  · intro rec hhit hdes
    have hres : resolve_id cfg now (some v) freshIds s
        = ResolveOut.ok uid none
            { s with inner := ainsert (uuidToString uid) { rec with data := [], expires := now + cfg.lifespan, autoremove := now + cfg.memory_lifespan } s.inner } [] := by
      simp [resolve_id, hv, hhit, hdes]
    exact ⟨_, _, hres, alookup_ainsert_self _ _ _, by simp [hdes], rfl⟩
  · intro rec hmiss hloadok hback hdes
    have hres : resolve_id cfg now (some v) freshIds s
        = ResolveOut.ok uid (some (uuidToString uid))
            { s with inner := ainsert (uuidToString uid) { rec with data := [], expires := now + 6 * 3600, autoremove := now + cfg.memory_lifespan } s.inner } [] := by
      simp [resolve_id, hv, hmiss, load_session, hloadok, hback, hdes]
    exact ⟨_, _, hres, alookup_ainsert_self _ _ _, by simp [hdes], rfl⟩

/-- C9 witness: a destroyed record hit in the cache and a destroyed record
rehydrated from the backing store both come out with destroy still true and
data empty. -/
theorem c9_destroy_preserved_witness :
    (∃ s₁ rec₂,
      resolve_id ⟨"sid", 100, 10⟩ 0 (some "5") []
          ⟨[("5", ⟨5, [("a", "b")], 50, true, 50⟩)], ⟨1000, 1000⟩, [], false, false, false⟩
        = ResolveOut.ok 5 none s₁ [] ∧
      alookup (uuidToString 5) s₁.inner = some rec₂ ∧
      rec₂.destroy = true ∧ rec₂.data = []) ∧
    (∃ s₁ rec₂,
      resolve_id ⟨"sid", 100, 10⟩ 0 (some "7") []
          ⟨[], ⟨1000, 1000⟩, [("7", ⟨7, [("a", "b")], 900, true, 50⟩)], false, false, false⟩
        = ResolveOut.ok 7 (some (uuidToString 7)) s₁ [] ∧
      alookup (uuidToString 7) s₁.inner = some rec₂ ∧
      rec₂.destroy = true ∧ rec₂.data = []) :=
  ⟨(c9_destroy_preserved ⟨"sid", 100, 10⟩ 0 []
      ⟨[("5", ⟨5, [("a", "b")], 50, true, 50⟩)], ⟨1000, 1000⟩, [], false, false, false⟩
      "5" 5 (by decide)).1 ⟨5, [("a", "b")], 50, true, 50⟩ (by decide) (by decide),
    (c9_destroy_preserved ⟨"sid", 100, 10⟩ 0 []
      ⟨[], ⟨1000, 1000⟩, [("7", ⟨7, [("a", "b")], 900, true, 50⟩)], false, false, false⟩
      "7" 7 (by decide)).2 ⟨7, [("a", "b")], 900, true, 50⟩ (by decide) (by decide)
      (by decide) (by decide)⟩

/-- C5: on a request carrying a valid identifier found in the cache, the
record is updated in place: its data is cleared exactly when the destroy flag
is set or the expiry has passed, its expires and autoremove deadlines are
then set from configuration in either case, and no cookie is issued. -/
theorem c5_cache_hit_resolution (cfg : AxumSessionConfig) (now : Int) (freshIds : List Nat)
    (s : StoreState) (v : String) (uid : Nat) (rec : AxumSessionData)
    (hv : uuid_parse_str v = some uid)
    (hhit : alookup (uuidToString uid) s.inner = some rec) :
    resolve_id cfg now (some v) freshIds s
      = ResolveOut.ok uid none
          { s with inner := ainsert (uuidToString uid) ⟨rec.id, if rec.expires < now ∨ rec.destroy = true then [] else rec.data, now + cfg.lifespan, rec.destroy, now + cfg.memory_lifespan⟩ s.inner } [] := by
  by_cases h₁ : rec.expires < now <;> by_cases h₂ : rec.destroy = true <;>
    simp [resolve_id, hv, hhit, h₁, h₂]

/-- C5 witness: an expired record hit in the cache at time 60 comes out with
cleared data, deadlines set from configuration, and no cookie issued. -/
theorem c5_cache_hit_resolution_witness :
    resolve_id ⟨"sid", 100, 10⟩ 60 (some "5") []
        ⟨[("5", ⟨5, [("a", "b")], 50, false, 50⟩)], ⟨1000, 1000⟩, [], false, false, false⟩
      = ResolveOut.ok 5 none
          ⟨[("5", ⟨5, [], 160, false, 70⟩)], ⟨1000, 1000⟩, [], false, false, false⟩ [] :=
  c5_cache_hit_resolution ⟨"sid", 100, 10⟩ 60 []
    ⟨[("5", ⟨5, [("a", "b")], 50, false, 50⟩)], ⟨1000, 1000⟩, [], false, false, false⟩
    "5" 5 ⟨5, [("a", "b")], 50, false, 50⟩ (by decide) (by decide)

theorem finishNewId_ok_inserts (cfg : AxumSessionConfig) (now : Int) (uid uid₂ : Nat)
    (issued : Option String) (s₀ s₁ : StoreState) (tr₀ tr : List Event)
    (h : finishNewId cfg now uid₂ s₀ tr₀ = ResolveOut.ok uid issued s₁ tr) :
    issued = some (uuidToString uid) ∧
      alookup (uuidToString uid) s₁.inner = some (freshRecord cfg now uid) := by
  simp only [finishNewId] at h
  injection h with ha hb hc hd
  subst ha
  subst hb
  subst hc
  exact ⟨rfl, alookup_ainsert_self _ _ _⟩

/-- C3 counterexample: with configured lifespan 100 and memory lifespan 10, a
fresh session minted at time 0 gets expires 21600 (the hard-coded six hours),
not 0 + 100 as the claim (expires = now plus configured lifespan) states. -/
theorem c3_counterexample :
    (alookup "1" ((resolve_id ⟨"sid", 100, 10⟩ 0 none [1]
            ⟨[], ⟨1000, 1000⟩, [], false, false, false⟩).stateD
            ⟨[], ⟨1000, 1000⟩, [], false, false, false⟩).inner).map (fun d => d.expires)
        = some 21600 ∧
      ((21600 : Int) = 0 + 100) = False := by decide

/-- C3 (amended): every freshly constructed record — on the new-identifier
path, and on a rehydration whose loaded record fails validation or is
destroyed — has empty data, destroy unset (new path) resp. preserved
(rehydration), autoremove set to now plus the configured memory lifespan, and
expires set to now plus a hard-coded six hours, independent of the configured
lifespan. -/
theorem c3_fresh_record_fields (cfg : AxumSessionConfig) (now : Int) (freshIds : List Nat)
    (s : StoreState) (uid : Nat) (issued : Option String) (s₁ : StoreState) (tr : List Event) :
    (resolve_id cfg now none freshIds s = ResolveOut.ok uid issued s₁ tr →
      issued = some (uuidToString uid) ∧
      alookup (uuidToString uid) s₁.inner = some (freshRecord cfg now uid) ∧
      (freshRecord cfg now uid).data = [] ∧ (freshRecord cfg now uid).destroy = false ∧
      (freshRecord cfg now uid).expires = now + 6 * 3600 ∧
      (freshRecord cfg now uid).autoremove = now + cfg.memory_lifespan) ∧
    (∀ v rec, uuid_parse_str v = some uid →
      alookup (uuidToString uid) s.inner = none → s.loadFails = false →
      alookup (uuidToString uid) s.backing = some rec →
      (!rec.validate now || rec.destroy) = true →
      resolve_id cfg now (some v) freshIds s
        = ResolveOut.ok uid (some (uuidToString uid)) ({ s with inner := ainsert (uuidToString uid) { rec with data := [], expires := now + 6 * 3600, autoremove := now + cfg.memory_lifespan } s.inner }) []) := by
  constructor
  · intro hok
    cases hpf : pickFresh s.inner freshIds with
    | none => simp [resolve_id, hpf] at hok
    | some uid₂ =>
      simp only [resolve_id, hpf] at hok
      split at hok
      · split at hok
        · split at hok
          · exact absurd hok (by simp)
          · obtain ⟨hi, hl⟩ := finishNewId_ok_inserts _ _ _ _ _ _ _ _ _ hok
            exact ⟨hi, hl, rfl, rfl, rfl, rfl⟩
        · obtain ⟨hi, hl⟩ := finishNewId_ok_inserts _ _ _ _ _ _ _ _ _ hok
          exact ⟨hi, hl, rfl, rfl, rfl, rfl⟩
      · split at hok
        · split at hok
          · exact absurd hok (by simp)
          · obtain ⟨hi, hl⟩ := finishNewId_ok_inserts _ _ _ _ _ _ _ _ _ hok
            exact ⟨hi, hl, rfl, rfl, rfl, rfl⟩
        · obtain ⟨hi, hl⟩ := finishNewId_ok_inserts _ _ _ _ _ _ _ _ _ hok
          exact ⟨hi, hl, rfl, rfl, rfl, rfl⟩
  · intro v rec hv hmiss hld hback hval
    simp [resolve_id, hv, hmiss, load_session, hld, hback, hval]

/-- C3 witness: a fresh session minted at time 0 (both timers idle) and a
rehydration of an expired backing record both produce the hard-coded-expiry
fresh shape. -/
theorem c3_fresh_record_fields_witness :
    (some "1" = some (uuidToString 1) ∧
      alookup (uuidToString 1)
          (⟨[("1", freshRecord ⟨"sid", 100, 10⟩ 0 1)], ⟨1000, 1000⟩, [], false, false,
            false⟩ : StoreState).inner = some (freshRecord ⟨"sid", 100, 10⟩ 0 1) ∧
      (freshRecord ⟨"sid", 100, 10⟩ 0 1).data = [] ∧
      (freshRecord ⟨"sid", 100, 10⟩ 0 1).destroy = false ∧
      (freshRecord ⟨"sid", 100, 10⟩ 0 1).expires = 0 + 6 * 3600 ∧
      (freshRecord ⟨"sid", 100, 10⟩ 0 1).autoremove = 0 + 10) ∧
    resolve_id ⟨"sid", 100, 10⟩ 8 (some "1") []
        ⟨[], ⟨1000, 1000⟩, [("1", ⟨1, [("a", "b")], 7, false, 9⟩)], false, false, false⟩
      = ResolveOut.ok 1 (some (uuidToString 1))
          ({ (⟨[], ⟨1000, 1000⟩, [("1", ⟨1, [("a", "b")], 7, false, 9⟩)], false, false,
              false⟩ : StoreState) with
            inner := ainsert (uuidToString 1) { (⟨1, [("a", "b")], 7, false, 9⟩ : AxumSessionData) with data := [], expires := 8 + 6 * 3600, autoremove := 8 + 10 } [] })
          [] :=
  ⟨(c3_fresh_record_fields ⟨"sid", 100, 10⟩ 0 [1]
      ⟨[], ⟨1000, 1000⟩, [], false, false, false⟩ 1 (some "1")
      ⟨[("1", freshRecord ⟨"sid", 100, 10⟩ 0 1)], ⟨1000, 1000⟩, [], false, false, false⟩
      []).1 (by decide),
    (c3_fresh_record_fields ⟨"sid", 100, 10⟩ 8 []
      ⟨[], ⟨1000, 1000⟩, [("1", ⟨1, [("a", "b")], 7, false, 9⟩)], false, false, false⟩
      1 none ⟨[], ⟨0, 0⟩, [], false, false, false⟩ []).2 "1" ⟨1, [("a", "b")], 7, false, 9⟩
      (by decide) (by decide) (by decide) (by decide) (by decide)⟩

/-- C4 counterexample: with memory lifespan 10 and lifespan 1, two
new-identifier resolve calls at times 0 and 2 — both inside the same
memory-lifespan window, as 2 - 0 < 10 — run three cache sweeps in total, not
at most one; moreover a run whose cache-sweep timer is still in the future
(set to 5, now 0) still performs a cache sweep, because the second sweep
block, gated by the database timer, also sweeps the cache. -/
theorem c4_counterexample :
    ((axum_session_runner ⟨"sid", 1, 10⟩ 0 true none [1] (fun st => st) (fun d => d)
            ⟨[], ⟨0, 0⟩, [], false, false, false⟩).trace.count Event.cacheSweep)
        + ((axum_session_runner ⟨"sid", 1, 10⟩ 2 true none [2] (fun st => st) (fun d => d)
            (axum_session_runner ⟨"sid", 1, 10⟩ 0 true none [1] (fun st => st) (fun d => d)
              ⟨[], ⟨0, 0⟩, [], false, false, false⟩).state).trace.count Event.cacheSweep) = 3 ∧
      (2 : Int) - 0 < 10 ∧
      (((0 : Int) < 5) ∧ Event.cacheSweep ∈
        (axum_session_runner ⟨"sid", 1, 10⟩ 0 true none [1] (fun st => st) (fun d => d)
          ⟨[], ⟨5, 0⟩, [], false, false, false⟩).trace) := by
  decide

/-- C4 (amended): on a new-identifier resolve, the number of cache sweeps run
is one for each due timer — one when the cache-sweep timer is due and another
when the database-sweep timer is due — so a single call can sweep the cache
twice, and the cache sweep is gated by both timers, not solely by the
cache-sweep timer; the cache-sweep-timer-gated sweep itself is throttled:
when it runs, the timer is pushed to now plus the memory lifespan. -/
theorem c4_sweep_gating (cfg : AxumSessionConfig) (now : Int) (freshIds : List Nat)
    (s : StoreState) (uid : Nat)
    (hp : pickFresh s.inner freshIds = some uid) :
    (resolve_id cfg now none freshIds s).events.count Event.cacheSweep
        = ((if s.timers.last_expiry_sweep ≤ now then 1 else 0)
            + (if s.timers.last_database_expiry_sweep ≤ now then 1 else 0)) ∧
      ((resolve_id cfg now none freshIds s).stateD s).timers.last_expiry_sweep
        = (if s.timers.last_expiry_sweep ≤ now then now + cfg.memory_lifespan
            else s.timers.last_expiry_sweep) := by
  by_cases h₁ : s.timers.last_expiry_sweep ≤ now <;>
    by_cases h₂ : s.timers.last_database_expiry_sweep ≤ now <;>
      by_cases hc : s.cleanupFails = true <;>
        simp [resolve_id, hp, h₁, h₂, hc, store_cleanup, finishNewId, ResolveOut.events,
          ResolveOut.stateD]

/-- C4 witness: at time 0 with both timers due, a new-identifier resolve runs
two cache sweeps and pushes the cache-sweep timer to 0 + 10. -/
theorem c4_sweep_gating_witness :
    (resolve_id ⟨"sid", 1, 10⟩ 0 none [1]
          ⟨[], ⟨0, 0⟩, [], false, false, false⟩).events.count Event.cacheSweep
        = ((if (0 : Int) ≤ 0 then 1 else 0) + (if (0 : Int) ≤ 0 then 1 else 0)) ∧
      ((resolve_id ⟨"sid", 1, 10⟩ 0 none [1]
            ⟨[], ⟨0, 0⟩, [], false, false, false⟩).stateD
          ⟨[], ⟨0, 0⟩, [], false, false, false⟩).timers.last_expiry_sweep
        = (if (0 : Int) ≤ 0 then 0 + 10 else 0) :=
  c4_sweep_gating ⟨"sid", 1, 10⟩ 0 [1] ⟨[], ⟨0, 0⟩, [], false, false, false⟩ 1 (by decide)

/-- C8 counterexample: with the save flag failing, a cache-hit request ends
in a save panic — not in the error result of the middleware (the
status-error return) and not in a normal completion; likewise a cleanup
failure on the new-identifier path ends in a cleanup panic.  So neither
failure is surfaced to the caller as an error result (they abort processing
instead), though neither is silently swallowed. -/
theorem c8_counterexample :
    (axum_session_runner ⟨"sid", 100, 10⟩ 0 true (some "5") [] (fun st => st) (fun d => d)
          ⟨[("5", ⟨5, [], 50, false, 50⟩)], ⟨1000, 1000⟩, [], false, true, false⟩).outcome
        = Outcome.panicSave ∧
      Outcome.panicSave ≠ Outcome.errStatus ∧ Outcome.panicSave ≠ Outcome.ok ∧
      (axum_session_runner ⟨"sid", 100, 10⟩ 0 true none [1] (fun st => st) (fun d => d)
          ⟨[], ⟨1000, 0⟩, [], false, false, true⟩).outcome = Outcome.panicCleanup ∧
      Outcome.panicCleanup ≠ Outcome.errStatus ∧ Outcome.panicCleanup ≠ Outcome.ok := by
  decide

/-- C8 (amended): a backing-store failure during the end-of-request save or
during the backing-store cleanup sweep is not silently swallowed, but it is
surfaced as a panic that aborts request processing (the unwrap), not as an
error result returned to the caller. -/
theorem c8_store_failures_panic (cfg : AxumSessionConfig) (now : Int) (freshIds : List Nat)
    (hmut : AxumSessionData → AxumSessionData) (s : StoreState) :
    (∀ v uid rec, s.saveFails = true → uuid_parse_str v = some uid →
      alookup (uuidToString uid) s.inner = some rec →
      (axum_session_runner cfg now true (some v) freshIds (fun st => st) hmut s).outcome
        = Outcome.panicSave) ∧
    (∀ uid, s.cleanupFails = true → s.timers.last_database_expiry_sweep ≤ now →
      pickFresh s.inner freshIds = some uid →
      (axum_session_runner cfg now true none freshIds (fun st => st) hmut s).outcome
        = Outcome.panicCleanup) := by
  constructor
  · intro v uid rec hsf hv hhit
    have hres : resolve_id cfg now (some v) freshIds s
        = ResolveOut.ok uid none ({ s with inner := ainsert (uuidToString uid) ⟨rec.id, if rec.expires < now ∨ rec.destroy = true then [] else rec.data, now + cfg.lifespan, rec.destroy, now + cfg.memory_lifespan⟩ s.inner }) [] := by
      by_cases h₁ : rec.expires < now <;> by_cases h₂ : rec.destroy = true <;>
        simp [resolve_id, hv, hhit, h₁, h₂]
    simp only [axum_session_runner, hres]
    simp [persist_step, alookup_ainsert_self, store_session, hsf]
  · intro uid hcf hdb hp
    by_cases h₁ : s.timers.last_expiry_sweep ≤ now
    · have hres : resolve_id cfg now none freshIds s
          = ResolveOut.panicCleanup ({ s with inner := sweepCache now (sweepCache now s.inner), timers := ⟨now + cfg.memory_lifespan, s.timers.last_database_expiry_sweep⟩ }) [Event.cacheSweep, Event.cacheSweep] := by
        simp [resolve_id, hp, h₁, hdb, store_cleanup, hcf]
      simp [axum_session_runner, hres]
    · have hres : resolve_id cfg now none freshIds s
          = ResolveOut.panicCleanup ({ s with inner := sweepCache now s.inner }) [Event.cacheSweep] := by
        simp [resolve_id, hp, h₁, hdb, store_cleanup, hcf]
      simp [axum_session_runner, hres]

/-- C8 witness: a failing save on a cache hit of identifier 5, and a failing
cleanup on the new-identifier path with the database timer due. -/
theorem c8_store_failures_panic_witness :
    (axum_session_runner ⟨"sid", 100, 10⟩ 7 true (some "5") [] (fun st => st) (fun d => d)
          ⟨[("5", ⟨5, [], 50, false, 50⟩)], ⟨1000, 1000⟩, [], false, true, true⟩).outcome
        = Outcome.panicSave ∧
      (axum_session_runner ⟨"sid", 100, 10⟩ 7 true none [1] (fun st => st) (fun d => d)
          ⟨[], ⟨1000, 0⟩, [], false, true, true⟩).outcome = Outcome.panicCleanup :=
  ⟨(c8_store_failures_panic ⟨"sid", 100, 10⟩ 7 [] (fun d => d)
      ⟨[("5", ⟨5, [], 50, false, 50⟩)], ⟨1000, 1000⟩, [], false, true, true⟩).1
      "5" 5 ⟨5, [], 50, false, 50⟩ (by decide) (by decide) (by decide),
    (c8_store_failures_panic ⟨"sid", 100, 10⟩ 7 [1] (fun d => d)
      ⟨[], ⟨1000, 0⟩, [], false, true, true⟩).2 1 (by decide) (by decide) (by decide)⟩

theorem persist_events_no_handler (s : StoreState) (key : String) :
    Event.runHandler ∉ (persist_step s key).2.2 := by
  unfold persist_step
  split
  · simp
  · split <;> simp

/-- C1 counterexample: for a cache-hit request at identifier 5 whose handler
writes a key into the session data, the run completes normally with the
persistence write event strictly before the handler event, and afterwards
the in-memory record holds the handler mutation while the backing store
holds the pre-handler record with empty data — the mutation made by the
handler was not persisted before the request finished. -/
theorem c1_counterexample :
    (axum_session_runner ⟨"sid", 100, 10⟩ 0 true (some "5") [] (fun st => st)
          (fun d => { d with data := [("k", "v")] })
          ⟨[("5", ⟨5, [], 50, false, 50⟩)], ⟨1000, 1000⟩, [], false, false, false⟩).outcome
        = Outcome.ok ∧
      (axum_session_runner ⟨"sid", 100, 10⟩ 0 true (some "5") [] (fun st => st)
          (fun d => { d with data := [("k", "v")] })
          ⟨[("5", ⟨5, [], 50, false, 50⟩)], ⟨1000, 1000⟩, [], false, false, false⟩).trace
        = [Event.saveRecord "5", Event.runHandler] ∧
      (alookup "5" (axum_session_runner ⟨"sid", 100, 10⟩ 0 true (some "5") [] (fun st => st)
          (fun d => { d with data := [("k", "v")] })
          ⟨[("5", ⟨5, [], 50, false, 50⟩)], ⟨1000, 1000⟩, [], false, false,
            false⟩).state.inner).map (fun d => d.data) = some [("k", "v")] ∧
      (alookup "5" (axum_session_runner ⟨"sid", 100, 10⟩ 0 true (some "5") [] (fun st => st)
          (fun d => { d with data := [("k", "v")] })
          ⟨[("5", ⟨5, [], 50, false, 50⟩)], ⟨1000, 1000⟩, [], false, false,
            false⟩).state.backing).map (fun d => d.data) = some [] := by
  decide

/-- C1 (amended): in every normally completing run, the downstream handler is
the last step: the trace ends with the handler event and the handler event
occurs nowhere earlier, so the unconditional persistence write (when it
happens) precedes the handler instead of following it — the write persists
the record as it stood before the handler ran. -/
theorem c1_save_precedes_handler (cfg : AxumSessionConfig) (now : Int) (hasCookies : Bool)
    (cookieVal : Option String) (freshIds : List Nat)
    (interleave : StoreState → StoreState) (hmut : AxumSessionData → AxumSessionData)
    (s : StoreState)
    (hok : (axum_session_runner cfg now hasCookies cookieVal freshIds interleave hmut s).outcome
      = Outcome.ok) :
    ∃ t, (axum_session_runner cfg now hasCookies cookieVal freshIds interleave hmut s).trace
        = t ++ [Event.runHandler] ∧ Event.runHandler ∉ t := by
  by_cases hc : hasCookies = false
  · simp [axum_session_runner, hc] at hok
  · cases hres : resolve_id cfg now cookieVal freshIds s with
    | panicParse => simp [axum_session_runner, hc, hres] at hok
    | panicCleanup s₁ tr => simp [axum_session_runner, hc, hres] at hok
    | hang => simp [axum_session_runner, hc, hres] at hok
    | ok uid issued s₁ tr =>
      by_cases hps : (persist_step (interleave s₁) (uuidToString uid)).1 = Outcome.panicSave
      · simp [axum_session_runner, hc, hres, hps] at hok
      · refine ⟨tr ++ (persist_step (interleave s₁) (uuidToString uid)).2.2, ?_, ?_⟩
        · simp [axum_session_runner, hc, hres, hps]
        · intro hmem
          rcases List.mem_append.mp hmem with hmem | hmem
          · have hev : Event.runHandler ∈ (resolve_id cfg now cookieVal freshIds s).events := by
              rw [hres]
              exact hmem
            rcases resolve_events_sweep_only cfg now cookieVal freshIds s Event.runHandler hev
              with h | h <;> simp at h
          · exact persist_events_no_handler _ _ hmem

/-- C1 witness: the amended ordering at a concrete cache-hit run whose
handler writes a key into the session data. -/
theorem c1_save_precedes_handler_witness :
    ∃ t, (axum_session_runner ⟨"sid", 100, 10⟩ 0 true (some "5") [] (fun st => st)
            (fun d => { d with data := [("k", "v")] })
            ⟨[("5", ⟨5, [], 50, false, 50⟩)], ⟨1000, 1000⟩, [], false, false, false⟩).trace
        = t ++ [Event.runHandler] ∧ Event.runHandler ∉ t :=
  c1_save_precedes_handler ⟨"sid", 100, 10⟩ 0 true (some "5") [] (fun st => st)
    (fun d => { d with data := [("k", "v")] })
    ⟨[("5", ⟨5, [], 50, false, 50⟩)], ⟨1000, 1000⟩, [], false, false, false⟩ (by decide)
